import Mathlib

/-!
Shallow embedding of the meeting-scheduling core of `src/script.py`
(class `MeetingScheduler`).

Time is modelled as minutes since the Unix epoch (1970-01-01T00:00 UTC),
as an `Int`.  Python `datetime` values in the source are always made
timezone-aware in the single reference timezone UTC, so an instant is
fully described by this minute count; the hour, minute and weekday
accessors below mirror Python `datetime.hour`, `.minute`, `.weekday()`
(Monday = 0) for UTC datetimes.  `timedelta(hours=1)` is 60 minutes and
`timedelta(days=60)` is `60 * 1440` minutes.

The persisted store holds `start`/`end` as `isoformat()` strings and
`check_conflicts` re-parses them with `fromisoformat`; that round trip
is exact for `datetime`, so the store is embedded as a list of records
whose `start`/`end` are the minute counts themselves.
-/

/-- Source constant `BUSINESS_HOURS = {'start': 9, 'end': 17}`. -/
structure BusinessHours where
  start : Int
  «end» : Int
deriving DecidableEq

def BUSINESS_HOURS : BusinessHours := ⟨9, 17⟩

/-- Source constant `WEEKEND_DAYS = (5, 6)` (Python weekday: Sat = 5, Sun = 6). -/
def WEEKEND_DAYS : List Int := [5, 6]

/-- Source constant `MINIMUM_NOTICE = timedelta(hours=1)`, in minutes. -/
def MINIMUM_NOTICE : Int := 60

/-- Source constant `MAXIMUM_FUTURE_DAYS = 60`. -/
def MAXIMUM_FUTURE_DAYS : Int := 60

namespace DT

/-- Python `datetime.hour` of a UTC instant given in minutes since epoch. -/
def hour (t : Int) : Int := (Int.emod t 1440).ediv 60

/-- Python `datetime.minute` of a UTC instant given in minutes since epoch. -/
def minute (t : Int) : Int := Int.emod t 60

/-- Python `datetime.weekday()` (Monday = 0 .. Sunday = 6) of a UTC instant;
1970-01-01 was a Thursday (weekday 3). -/
def weekday (t : Int) : Int := Int.emod (Int.ediv t 1440 + 3) 7

end DT

/-- Gregorian civil date (year, month, day) from a day count since
1970-01-01, the standard days-to-civil algorithm with floor division.
Embeds the calendar arithmetic behind Python `datetime.strftime`. -/
def civilFromDays (z : Int) : Int × Int × Int :=
  let z2 := z + 719468
  let era := Int.ediv z2 146097
  let doe := Int.emod z2 146097
  let yoe := Int.ediv (doe - Int.ediv doe 1460 + Int.ediv doe 36524 - Int.ediv doe 146096) 365
  let y := yoe + era * 400
  let doy := doe - (365 * yoe + Int.ediv yoe 4 - Int.ediv yoe 100)
  let mp := Int.ediv (5 * doy + 2) 153
  let d := doy - Int.ediv (153 * mp + 2) 5 + 1
  let m := if mp < 10 then mp + 3 else mp - 9
  (if m ≤ 2 then y + 1 else y, m, d)

/-- Zero-pad the decimal representation of a non-negative integer to `width`. -/
def padNum (width : Nat) (n : Int) : String :=
  let s := toString n.toNat
  if width ≤ s.length then s
  else String.mk (List.replicate (width - s.length) '0') ++ s

/-- Python `start_datetime.strftime('%Y-%m-%d %H:%M')` for a UTC instant in
minutes since epoch. -/
def formatYmdHm (t : Int) : String :=
  let c := civilFromDays (Int.ediv t 1440)
  padNum 4 c.1 ++ "-" ++ padNum 2 c.2.1 ++ "-" ++ padNum 2 c.2.2 ++ " " ++
    padNum 2 (DT.hour t) ++ ":" ++ padNum 2 (DT.minute t)

/-- A persisted meeting record, as built in `schedule_meeting`
(`summary`, `start`, `end`, `attendees`); `start`/`end` are the instants
the stored `isoformat()` strings denote, in minutes since epoch. -/
structure Meeting where
  summary : String
  start : Int
  «end» : Int
  attendees : List String
deriving DecidableEq

/-- The result of a parsed ISO-8601 timestamp, as produced by Python
`datetime.fromisoformat`: the wall-clock fields (read as minutes since
epoch as if they were UTC) plus the explicit UTC offset in minutes when
the string carries one (`none` = naive input). -/
structure ISODT where
  wallMinutes : Int
  offsetMinutes : Option Int
deriving DecidableEq

/-- The instant a timezone-aware ISO timestamp denotes: wall-clock fields
minus the explicit offset.  (A naive timestamp denotes no instant until a
timezone is attached.) -/
def fromisoformat_instant (d : ISODT) : Option Int :=
  d.offsetMinutes.map (fun o => d.wallMinutes - o)

/-- Source line 142: `datetime.fromisoformat(start_time).replace(tzinfo=self.timezone)`.
`.replace(tzinfo=UTC)` keeps the wall-clock fields and overwrites any
timezone, so the resulting UTC instant is always the wall-clock reading,
whether or not the input carried an offset. -/
def parse_start (d : ISODT) : Int := d.wallMinutes

/-- Source `MeetingScheduler.is_valid_meeting_time` (lines 118-130): the
cascade of validation rules, first failure wins; `now` is
`datetime.now(self.timezone)` passed explicitly. -/
def is_valid_meeting_time (now start_datetime end_datetime : Int) : Bool × String :=
  if start_datetime < now + MINIMUM_NOTICE then
    (false, "Meeting must be scheduled at least 1 hour in advance")
  else if start_datetime > now + MAXIMUM_FUTURE_DAYS * 1440 then
    (false, "Cannot schedule meetings more than 60 days in advance")
  else if ¬ (BUSINESS_HOURS.start ≤ DT.hour start_datetime ∧
      DT.hour start_datetime < BUSINESS_HOURS.«end») then
    (false, "Meetings can only be scheduled during business hours (9 AM - 5 PM)")
  else if DT.hour end_datetime ≥ BUSINESS_HOURS.«end» then
    (false, "Meeting would extend beyond business hours")
  else if DT.weekday start_datetime ∈ WEEKEND_DAYS then
    (false, "Meetings cannot be scheduled on weekends")
  else
    (true, "Time slot is valid")

/-- Source `MeetingScheduler.check_conflicts` (lines 132-138): linear scan
over the stored meetings, returning `true` on the first overlap
`start_datetime < meeting.end and end_datetime > meeting.start`. -/
def check_conflicts (meetings : List Meeting) (start_datetime end_datetime : Int) : Bool :=
  meetings.any (fun meeting =>
    decide (start_datetime < meeting.«end» ∧ end_datetime > meeting.start))

/-- Outcome of one `schedule_meeting` call: the returned
`(success, message)` pair together with the in-memory `self.meetings`
list after the call. -/
structure ScheduleResult where
  success : Bool
  message : String
  meetings : List Meeting
deriving DecidableEq

/-- Source `MeetingScheduler.schedule_meeting` (lines 140-164).
Explicit-state embedding: `now` is the clock reading, `meetings` the
in-memory store before the call.  `start_time` is the outcome of
`fromisoformat` on the raw string: `none` models an unparsable string
(Python raises `ValueError`, caught by the `except` clause, which
returns `(False, "Failed to schedule meeting: " + str(e))`).
`saveErr` models `save_meetings()` (line 160): `some e` means the write
raises with message `e` — the `except` clause then returns a failure
pair, but the append at line 159 has already happened.
`attendees = none` models the Python default `attendees=None`;
`attendees or []` maps `none` (and the empty list) to `[]`. -/
def schedule_meeting (now : Int) (saveErr : Option String) (meetings : List Meeting)
    (summary : String) (start_time : Option ISODT) (duration_minutes : Int)
    (attendees : Option (List String)) : ScheduleResult :=
  match start_time with
  | none => ⟨false, "Failed to schedule meeting: Invalid isoformat string", meetings⟩
  | some d =>
    let start_datetime := parse_start d
    let end_datetime := start_datetime + duration_minutes
    let v := is_valid_meeting_time now start_datetime end_datetime
    if v.1 then
      if check_conflicts meetings start_datetime end_datetime then
        ⟨false, "Time slot is not available", meetings⟩
      else
        let meeting : Meeting :=
          ⟨summary, start_datetime, end_datetime, attendees.getD []⟩
        let meetings2 := meetings ++ [meeting]
        match saveErr with
        | some e => ⟨false, "Failed to schedule meeting: " ++ e, meetings2⟩
        | none =>
          ⟨true, "Meeting scheduled successfully for " ++ formatYmdHm start_datetime,
            meetings2⟩
    else
      ⟨false, v.2, meetings⟩

/-- `VoiceBot.schedule_meeting` defaults (line 91-92): `duration` defaults
to 60 minutes and `attendees` to the empty list when omitted. -/
def schedule_meeting_defaults (now : Int) (saveErr : Option String)
    (meetings : List Meeting) (summary : String) (start_time : Option ISODT) :
    ScheduleResult :=
  schedule_meeting now saveErr meetings summary start_time 60 none

/-- Two meetings overlap when their half-open `[start, end)` intervals
intersect — the test of line 136 lifted to stored records. -/
def overlaps (a b : Meeting) : Prop := a.start < b.«end» ∧ a.«end» > b.start

instance (a b : Meeting) : Decidable (overlaps a b) := by
  unfold overlaps
  exact instDecidableAnd

/-- Stores reachable from the empty store by `schedule_meeting` calls
(any clock reading, save outcome and arguments at each step). -/
inductive Reachable : List Meeting → Prop where
  | base : Reachable []
  | step (now : Int) (saveErr : Option String) (summary : String)
      (st : Option ISODT) (dur : Int) (att : Option (List String))
      (ms : List Meeting) :
      Reachable ms →
      Reachable (schedule_meeting now saveErr ms summary st dur att).meetings

example : civilFromDays 19730 = (2024, 1, 8) := by decide
example : formatYmdHm 28411800 = "2024-01-08 10:00" := by decide
example : DT.weekday 28411800 = 0 := by decide
example : DT.weekday (19735 * 1440 + 600) = 5 := by decide

/-! ### Helper lemmas -/

theorem check_conflicts_eq_true_iff (ms : List Meeting) (s e : Int) :
    check_conflicts ms s e = true ↔ ∃ m ∈ ms, s < m.«end» ∧ e > m.start := by
  simp [check_conflicts, List.any_eq_true]

theorem check_conflicts_eq_false_iff (ms : List Meeting) (s e : Int) :
    check_conflicts ms s e = false ↔ ∀ m ∈ ms, ¬ (s < m.«end» ∧ e > m.start) := by
  simp [check_conflicts, List.any_eq_false]

theorem BUSINESS_HOURS_start_eq : BUSINESS_HOURS.start = 9 := rfl

theorem BUSINESS_HOURS_end_eq : BUSINESS_HOURS.«end» = 17 := rfl

theorem valid_slot_eq (now s e : Int)
    (h1 : now + MINIMUM_NOTICE ≤ s) (h2 : s ≤ now + MAXIMUM_FUTURE_DAYS * 1440)
    (h3 : 9 ≤ DT.hour s) (h4 : DT.hour s < 17) (h5 : DT.hour e < 17)
    (h6 : DT.weekday s ∉ WEEKEND_DAYS) :
    is_valid_meeting_time now s e = (true, "Time slot is valid") := by
  unfold is_valid_meeting_time
  simp only [MINIMUM_NOTICE, MAXIMUM_FUTURE_DAYS, BUSINESS_HOURS_start_eq,
    BUSINESS_HOURS_end_eq] at h1 h2 ⊢
  rw [if_neg (by omega), if_neg (by omega),
    if_neg (not_not_intro ⟨h3, h4⟩), if_neg (by omega), if_neg h6]

theorem schedule_meetings_cases (now : Int) (saveErr : Option String)
    (ms : List Meeting) (summary : String) (st : Option ISODT) (dur : Int)
    (att : Option (List String)) :
    (schedule_meeting now saveErr ms summary st dur att).meetings = ms ∨
    ∃ d : ISODT, st = some d ∧
      check_conflicts ms (parse_start d) (parse_start d + dur) = false ∧
      (schedule_meeting now saveErr ms summary st dur att).meetings =
        ms ++ [⟨summary, parse_start d, parse_start d + dur, att.getD []⟩] := by
  match st with
  | none => exact Or.inl rfl
  | some d =>
    by_cases hv : (is_valid_meeting_time now (parse_start d) (parse_start d + dur)).1 = true
    · by_cases hc : check_conflicts ms (parse_start d) (parse_start d + dur) = true
      · exact Or.inl (by simp [schedule_meeting, hv, hc])
      · refine Or.inr ⟨d, rfl, by simpa using hc, ?_⟩
        cases saveErr <;> simp [schedule_meeting, hv, hc]
    · exact Or.inl (by simp [schedule_meeting, hv])

theorem noOverlaps_preserved (now : Int) (saveErr : Option String)
    (ms : List Meeting) (summary : String) (st : Option ISODT) (dur : Int)
    (att : Option (List String))
    (h : ms.Pairwise (fun a b => ¬ overlaps a b)) :
    ((schedule_meeting now saveErr ms summary st dur att).meetings).Pairwise
      (fun a b => ¬ overlaps a b) := by
  rcases schedule_meetings_cases now saveErr ms summary st dur att with
    heq | ⟨d, hst, hc, heq⟩
  · rw [heq]; exact h
  · rw [heq, List.pairwise_append]
    refine ⟨h, by simp, ?_⟩
    intro a ha b hb
    simp only [List.mem_singleton] at hb
    subst hb
    have hna := (check_conflicts_eq_false_iff ms (parse_start d)
      (parse_start d + dur)).mp hc a ha
    unfold overlaps
    simp only [not_and] at hna ⊢
    intro h1 h2
    exact hna h2 h1

/-! ### Claim theorems -/

/-- Claim C1: for every slot on a weekday with start hour in `[9, 17)`, end
hour `< 17`, start at least 1 hour and at most 60 days after `now`, not
overlapping any stored meeting, `schedule_meeting` succeeds with the message
`"Meeting scheduled successfully for <YYYY-MM-DD HH:MM>"`, and the store
grows by exactly one meeting: the given summary, the given start,
`end = start + duration_minutes`, and the given attendees (empty by
default). -/
theorem C1_schedule_success (now s dur : Int) (summary : String)
    (att : Option (List String)) (ms : List Meeting)
    (h1 : now + MINIMUM_NOTICE ≤ s) (h2 : s ≤ now + MAXIMUM_FUTURE_DAYS * 1440)
    (h3 : 9 ≤ DT.hour s) (h4 : DT.hour s < 17) (h5 : DT.hour (s + dur) < 17)
    (h6 : DT.weekday s ∉ WEEKEND_DAYS)
    (h7 : ∀ m ∈ ms, ¬ (s < m.«end» ∧ s + dur > m.start)) :
    schedule_meeting now none ms summary (some ⟨s, none⟩) dur att =
      ⟨true, "Meeting scheduled successfully for " ++ formatYmdHm s,
        ms ++ [⟨summary, s, s + dur, att.getD []⟩]⟩ ∧
    (schedule_meeting now none ms summary (some ⟨s, none⟩) dur att).meetings.length =
      ms.length + 1 := by
  have hv := valid_slot_eq now s (s + dur) h1 h2 h3 h4 h5 h6
  have hc := (check_conflicts_eq_false_iff ms s (s + dur)).mpr h7
  constructor
  · simp [schedule_meeting, parse_start, hv, hc]
  · simp [schedule_meeting, parse_start, hv, hc]

theorem C1_witness :
    schedule_meeting 28411680 none [] "Sync" (some ⟨28411800, none⟩) 30 none =
      ⟨true, "Meeting scheduled successfully for " ++ formatYmdHm 28411800,
        [] ++ [⟨"Sync", 28411800, 28411800 + 30, []⟩]⟩ ∧
    (schedule_meeting 28411680 none [] "Sync"
      (some ⟨28411800, none⟩) 30 none).meetings.length =
      ([] : List Meeting).length + 1 :=
  C1_schedule_success 28411680 28411800 30 "Sync" none []
    (by decide) (by decide) (by decide) (by decide) (by decide) (by decide)
    (by simp)

/-- Claim C2: every store reachable from the empty store by
`schedule_meeting` calls is pairwise non-overlapping under half-open
interval semantics, and the pairwise non-overlap predicate is preserved by
every single `schedule_meeting` operation. -/
theorem C2_no_overlap_invariant :
    (∀ ms : List Meeting, Reachable ms →
      ms.Pairwise (fun a b => ¬ overlaps a b)) ∧
    (∀ (now : Int) (saveErr : Option String) (ms : List Meeting)
      (summary : String) (st : Option ISODT) (dur : Int)
      (att : Option (List String)),
      ms.Pairwise (fun a b => ¬ overlaps a b) →
      ((schedule_meeting now saveErr ms summary st dur att).meetings).Pairwise
        (fun a b => ¬ overlaps a b)) := by
  constructor
  · intro ms h
    induction h with
    | base => exact List.Pairwise.nil
    | step now saveErr summary st dur att ms2 _ ih =>
        exact noOverlaps_preserved now saveErr ms2 summary st dur att ih
  · intro now saveErr ms summary st dur att h
    exact noOverlaps_preserved now saveErr ms summary st dur att h

theorem C2_witness :
    ((schedule_meeting 28411680 none [] "A"
      (some ⟨28411800, none⟩) 30 none).meetings).Pairwise
      (fun a b => ¬ overlaps a b) :=
  C2_no_overlap_invariant.1 _
    (Reachable.step 28411680 none "A" (some ⟨28411800, none⟩) 30 none []
      Reachable.base)

/-- Claim C3: `check_conflicts` returns `true` iff some stored meeting
satisfies `start < meeting.end ∧ end > meeting.start`; in particular a
candidate touching a stored meeting (candidate end equal to its start, or
candidate start equal to its end) does not conflict with it. -/
theorem C3_conflict_iff (ms : List Meeting) (s e : Int) :
    (check_conflicts ms s e = true ↔ ∃ m ∈ ms, s < m.«end» ∧ e > m.start) ∧
    (∀ m : Meeting, e = m.start ∨ s = m.«end» →
      check_conflicts [m] s e = false) := by
  refine ⟨check_conflicts_eq_true_iff ms s e, ?_⟩
  intro m hm
  rw [check_conflicts_eq_false_iff]
  intro m2 hm2
  simp only [List.mem_singleton] at hm2
  subst hm2
  rcases hm with h | h <;> omega

theorem C3_witness :
    check_conflicts [⟨"m", 600, 660, []⟩] 660 720 = false ∧
    check_conflicts [⟨"m", 600, 660, []⟩] 630 690 = true :=
  ⟨(C3_conflict_iff [⟨"m", 600, 660, []⟩] 660 720).2 ⟨"m", 600, 660, []⟩
      (Or.inr rfl),
   (C3_conflict_iff [⟨"m", 600, 660, []⟩] 630 690).1.mpr
      ⟨⟨"m", 600, 660, []⟩, by simp, by decide⟩⟩

/-- Claim C4: a slot starting strictly before `now` + 1 hour is rejected
with the minimum-notice message and the store is unchanged; a start exactly
equal to `now` + 1 hour passes this rule (no outcome of the validator at
such a start carries the minimum-notice message). -/
theorem C4_minimum_notice (now : Int) (saveErr : Option String)
    (ms : List Meeting) (summary : String) (d : ISODT) (dur : Int)
    (att : Option (List String))
    (h : d.wallMinutes < now + MINIMUM_NOTICE) :
    schedule_meeting now saveErr ms summary (some d) dur att =
      ⟨false, "Meeting must be scheduled at least 1 hour in advance", ms⟩ ∧
    ∀ e : Int, (is_valid_meeting_time now (now + MINIMUM_NOTICE) e).2 ≠
      "Meeting must be scheduled at least 1 hour in advance" := by
  constructor
  · have hv : is_valid_meeting_time now (parse_start d) (parse_start d + dur) =
        (false, "Meeting must be scheduled at least 1 hour in advance") := by
      unfold is_valid_meeting_time
      simp only [parse_start]
      rw [if_pos h]
    simp [schedule_meeting, hv]
  · intro e
    unfold is_valid_meeting_time
    rw [if_neg (by omega)]
    repeat' split
    all_goals decide

theorem C4_witness :
    ((28411680 : Int) < 28411680 + MINIMUM_NOTICE) ∧
    schedule_meeting 28411680 none [] "T" (some ⟨28411680, none⟩) 30 none =
      ⟨false, "Meeting must be scheduled at least 1 hour in advance", []⟩ ∧
    (is_valid_meeting_time 28411680 (28411680 + MINIMUM_NOTICE) 28411800).2 ≠
      "Meeting must be scheduled at least 1 hour in advance" :=
  ⟨by decide,
   (C4_minimum_notice 28411680 none [] "T" ⟨28411680, none⟩ 30 none
      (by decide)).1,
   (C4_minimum_notice 28411680 none [] "T" ⟨28411680, none⟩ 30 none
      (by decide)).2 28411800⟩

/-- Claim C5 (amended): a slot starting on Saturday or Sunday that passes
the earlier validation rules (minimum notice, 60-day horizon,
business-hour start, end-hour) is rejected with the weekend message and
the store is unchanged.  The weekend rule is evaluated last, so it does
not fire regardless of hour or notice distance — see
`C5_counterexample`. -/
theorem C5_weekend (now : Int) (saveErr : Option String) (ms : List Meeting)
    (summary : String) (d : ISODT) (dur : Int) (att : Option (List String))
    (hwk : DT.weekday d.wallMinutes ∈ WEEKEND_DAYS)
    (h1 : now + MINIMUM_NOTICE ≤ d.wallMinutes)
    (h2 : d.wallMinutes ≤ now + MAXIMUM_FUTURE_DAYS * 1440)
    (h3 : 9 ≤ DT.hour d.wallMinutes) (h4 : DT.hour d.wallMinutes < 17)
    (h5 : DT.hour (d.wallMinutes + dur) < 17) :
    schedule_meeting now saveErr ms summary (some d) dur att =
      ⟨false, "Meetings cannot be scheduled on weekends", ms⟩ := by
  have hv : is_valid_meeting_time now (parse_start d) (parse_start d + dur) =
      (false, "Meetings cannot be scheduled on weekends") := by
    unfold is_valid_meeting_time
    simp only [parse_start, MINIMUM_NOTICE, MAXIMUM_FUTURE_DAYS,
      BUSINESS_HOURS_start_eq, BUSINESS_HOURS_end_eq] at h1 h2 ⊢
    rw [if_neg (by omega), if_neg (by omega),
      if_neg (not_not_intro ⟨h3, h4⟩), if_neg (by omega), if_pos hwk]
  simp [schedule_meeting, hv]

theorem C5_counterexample :
    DT.weekday 28418880 = 5 ∧
    (schedule_meeting 28411680 none [] "T"
        (some ⟨28418880, none⟩) 30 none).message ≠
      "Meetings cannot be scheduled on weekends" ∧
    (schedule_meeting 28411680 none [] "T"
        (some ⟨28418880, none⟩) 30 none).message =
      "Meetings can only be scheduled during business hours (9 AM - 5 PM)" := by
  decide

theorem C5_witness :
    schedule_meeting 28411680 none [] "T" (some ⟨28419000, none⟩) 30 none =
      ⟨false, "Meetings cannot be scheduled on weekends", []⟩ :=
  C5_weekend 28411680 none [] "T" ⟨28419000, none⟩ 30 none
    (by decide) (by decide) (by decide) (by decide) (by decide) (by decide)

/-- Claim C6: `schedule_meeting` is a total function into
`(success, message, store)` — the Python `except` clause converts every
internal failure into a returned pair, never a propagated exception — and
on an unparsable `startISO` (the `none` parse outcome) it returns
`success = false` with a descriptive message, leaving the store
unchanged. -/
theorem C6_malformed_no_crash (now : Int) (saveErr : Option String)
    (ms : List Meeting) (summary : String) (dur : Int)
    (att : Option (List String)) :
    (schedule_meeting now saveErr ms summary none dur att).success = false ∧
    (schedule_meeting now saveErr ms summary none dur att).message =
      "Failed to schedule meeting: Invalid isoformat string" ∧
    (schedule_meeting now saveErr ms summary none dur att).meetings = ms :=
  ⟨rfl, rfl, rfl⟩

/-- Claim C7 (amended): every meeting `schedule_meeting` appends satisfies
`end > start` whenever `duration_minutes` is positive; the interface also
accepts non-positive durations, for which the appended record violates
`end > start` — see `C7_counterexample` (duration 0 is accepted and stores
a meeting with `end = start`). -/
theorem C7_end_after_start (now : Int) (saveErr : Option String)
    (ms : List Meeting) (summary : String) (st : Option ISODT) (dur : Int)
    (att : Option (List String)) (hdur : 1 ≤ dur) :
    ∀ m ∈ (schedule_meeting now saveErr ms summary st dur att).meetings,
      m ∈ ms ∨ m.start < m.«end» := by
  intro m hm
  rcases schedule_meetings_cases now saveErr ms summary st dur att with
    heq | ⟨d, hst, hc, heq⟩
  · rw [heq] at hm
    exact Or.inl hm
  · rw [heq] at hm
    rcases List.mem_append.mp hm with h | h
    · exact Or.inl h
    · simp only [List.mem_singleton] at h
      subst h
      right
      show parse_start d < parse_start d + dur
      omega

theorem C7_counterexample :
    (schedule_meeting 28411680 none [] "Sync"
        (some ⟨28411800, none⟩) 0 none).success = true ∧
    (schedule_meeting 28411680 none [] "Sync"
        (some ⟨28411800, none⟩) 0 none).meetings =
      [⟨"Sync", 28411800, 28411800, []⟩] ∧
    ¬ ((28411800 : Int) < 28411800) := by
  decide

theorem C7_witness :
    ((1 : Int) ≤ 60) ∧
    ((⟨"Sync", 28411800, 28411860, []⟩ : Meeting) ∈ ([] : List Meeting) ∨
      (28411800 : Int) < 28411860) :=
  ⟨by decide,
   C7_end_after_start 28411680 none [] "Sync" (some ⟨28411800, none⟩) 60 none
      (by decide) ⟨"Sync", 28411800, 28411860, []⟩ (by decide)⟩

/-- Claim C8 (amended): parsing attaches the reference timezone
unconditionally (`.replace(tzinfo=UTC)`): the parsed start is always the
wall-clock reading of the input, so an offset-bearing input's explicit
offset is discarded, and the parsed start agrees with the instant the
offset denotes exactly when that offset is zero — see `C8_counterexample`
for a `+05:00` input parsed to a different instant. -/
theorem C8_offset_discarded (d : ISODT) (o : Int)
    (ho : d.offsetMinutes = some o) :
    parse_start d = d.wallMinutes ∧
    (fromisoformat_instant d = some (parse_start d) ↔ o = 0) := by
  refine ⟨rfl, ?_⟩
  simp only [fromisoformat_instant, ho, parse_start]
  show some (d.wallMinutes - o) = some d.wallMinutes ↔ o = 0
  rw [Option.some_inj]
  omega

theorem C8_counterexample :
    fromisoformat_instant ⟨28411800, some 300⟩ = some 28411500 ∧
    parse_start ⟨28411800, some 300⟩ = 28411800 ∧
    (28411800 : Int) ≠ 28411500 := by
  decide

theorem C8_witness :
    ISODT.offsetMinutes ⟨100, some 0⟩ = some 0 ∧
    (parse_start ⟨100, some 0⟩ = ISODT.wallMinutes ⟨100, some 0⟩ ∧
      (fromisoformat_instant ⟨100, some 0⟩ =
          some (parse_start ⟨100, some 0⟩) ↔ (0 : Int) = 0)) :=
  ⟨rfl, C8_offset_discarded ⟨100, some 0⟩ 0 rfl⟩

/-- Claim C9: for a slot passing the earlier rules (notice, horizon,
business-hour start), the validator rejects with the extends-beyond
message exactly when the hour component of `end` is ≥ 17, and the
validator's outcome depends on `end` only through that hour component
(not its minute, not its calendar day). -/
theorem C9_end_hour_only (now s e : Int)
    (h1 : now + MINIMUM_NOTICE ≤ s) (h2 : s ≤ now + MAXIMUM_FUTURE_DAYS * 1440)
    (h3 : 9 ≤ DT.hour s) (h4 : DT.hour s < 17) :
    (is_valid_meeting_time now s e =
        (false, "Meeting would extend beyond business hours") ↔
      17 ≤ DT.hour e) ∧
    (∀ e2 : Int, DT.hour e2 = DT.hour e →
      is_valid_meeting_time now s e2 = is_valid_meeting_time now s e) := by
  constructor
  · unfold is_valid_meeting_time
    simp only [MINIMUM_NOTICE, MAXIMUM_FUTURE_DAYS, BUSINESS_HOURS_start_eq,
      BUSINESS_HOURS_end_eq] at h1 h2 ⊢
    rw [if_neg (by omega), if_neg (by omega),
      if_neg (not_not_intro ⟨h3, h4⟩)]
    by_cases he : (17 : Int) ≤ DT.hour e
    · rw [if_pos (by omega)]
      simp [he]
    · rw [if_neg (by omega)]
      constructor
      · intro hco
        exfalso
        split at hco
        · exact absurd hco (by decide)
        · exact absurd hco (by decide)
      · intro h17
        exact absurd h17 he
  · intro e2 he2
    unfold is_valid_meeting_time
    rw [he2]

theorem C9_witness :
    (is_valid_meeting_time 28411680 28411800 28412220 =
        (false, "Meeting would extend beyond business hours") ↔
      (17 : Int) ≤ DT.hour 28412220) ∧
    is_valid_meeting_time 28411680 28411800 (28412219 + 1440) =
      is_valid_meeting_time 28411680 28411800 28412219 :=
  ⟨(C9_end_hour_only 28411680 28411800 28412220
      (by decide) (by decide) (by decide) (by decide)).1,
   (C9_end_hour_only 28411680 28411800 28412219
      (by decide) (by decide) (by decide) (by decide)).2
      (28412219 + 1440) (by decide)⟩

/-- Claim C10: when the persist step raises (modelled by `saveErr = some e`)
after validation and conflict checks have passed, `schedule_meeting`
returns a failure pair, but the in-memory meeting list already contains
the appended meeting — the reported failure leaves the state mutated. -/
theorem C10_save_failure_not_atomic (now : Int) (e : String)
    (ms : List Meeting) (summary : String) (d : ISODT) (dur : Int)
    (att : Option (List String))
    (hv : (is_valid_meeting_time now (parse_start d) (parse_start d + dur)).1
      = true)
    (hc : check_conflicts ms (parse_start d) (parse_start d + dur) = false) :
    schedule_meeting now (some e) ms summary (some d) dur att =
      ⟨false, "Failed to schedule meeting: " ++ e,
        ms ++ [⟨summary, parse_start d, parse_start d + dur, att.getD []⟩]⟩ ∧
    (⟨summary, parse_start d, parse_start d + dur, att.getD []⟩ : Meeting) ∈
      (schedule_meeting now (some e) ms summary (some d) dur att).meetings := by
  have h1 : schedule_meeting now (some e) ms summary (some d) dur att =
      ⟨false, "Failed to schedule meeting: " ++ e,
        ms ++ [⟨summary, parse_start d, parse_start d + dur, att.getD []⟩]⟩ := by
    simp [schedule_meeting, hv, hc]
  refine ⟨h1, ?_⟩
  rw [h1]
  simp

theorem C10_witness :
    schedule_meeting 28411680 (some "disk full") [] "Sync"
        (some ⟨28411800, none⟩) 30 none =
      ⟨false, "Failed to schedule meeting: " ++ "disk full",
        [] ++ [⟨"Sync", parse_start ⟨28411800, none⟩,
          parse_start ⟨28411800, none⟩ + 30,
          (none : Option (List String)).getD []⟩]⟩ :=
  (C10_save_failure_not_atomic 28411680 "disk full" [] "Sync"
      ⟨28411800, none⟩ 30 none (by decide) (by decide)).1
